import Mathlib

/-!
Verification of the SQL-explanation backend (src/server.js).

The development shallowly embeds the request handler of `POST /api/explain-sql`
and its supporting pieces:

* the cache key, computed in the source as
  `JSON.stringify({ sql, challengeId, title, gradeStatus })` (src/server.js:40),
  is embedded as `deriveKey` below, together with a faithful model of the JSON
  string-escaping that `JSON.stringify` applies to string values;
* the in-memory `Map` cache (src/server.js:24) is embedded as an insertion-ordered
  association list with `mapGet` / `mapSet`, and the handler-side bound
  enforcement `cache.set(key, v); if (cache.size > 1000) cache.clear()`
  (src/server.js:85-86) as `putWithBound`;
* the request handler body (src/server.js:31-93) as the pure function
  `handleExplain`, taking the upstream chat-completion service as an oracle
  argument and returning the HTTP response, the new cache state and the list of
  upstream calls made.

Strings are modelled as lists of Unicode scalar values (`List Char`).
-/

namespace ExplainBackend

/-- Strings of the JavaScript program, modelled as lists of characters. -/
abbrev Str := List Char

/-- JavaScript `a || b` where `a` is a string-or-`undefined` value: the empty
string and `undefined` are falsy, every other string is truthy.  Used by the
source for the prompt fallbacks (src/server.js:60-65, 80-82). -/
def jsOr (o : Option Str) (dflt : Str) : Str :=
  match o with
  | some s => if s = [] then dflt else s
  | none => dflt

/-! ### JSON string escaping, as performed by `JSON.stringify` on string values

`JSON.stringify` escapes `"` as `\"`, `\` as `\\`, the control characters
U+0008/09/0A/0C/0D as `\b` `\t` `\n` `\f` `\r`, every other control character
below U+0020 as `\u00XX` with lowercase hex digits, and leaves all other
characters unchanged. -/

/-- Lowercase hexadecimal digit for a value below 16, as produced by
`JSON.stringify` in `\u00XX` escapes. -/
def hexDigit (n : Nat) : Char :=
  if n < 10 then Char.ofNat (48 + n) else Char.ofNat (87 + n)

/-- The escape sequence `JSON.stringify` emits for one character of a string
value. -/
def escChar (c : Char) : List Char :=
  if c = '"' then ['\\', '"']
  else if c = '\\' then ['\\', '\\']
  else if c.toNat < 32 then
    if c.toNat = 8 then ['\\', 'b']
    else if c.toNat = 9 then ['\\', 't']
    else if c.toNat = 10 then ['\\', 'n']
    else if c.toNat = 12 then ['\\', 'f']
    else if c.toNat = 13 then ['\\', 'r']
    else ['\\', 'u', '0', '0', hexDigit (c.toNat / 16), hexDigit (c.toNat % 16)]
  else [c]

/-- Body of the JSON serialization of a string value (the part between the
surrounding quotes). -/
def esc : Str → Str
  | [] => []
  | c :: s => escChar c ++ esc s

/-- Serialization of one optional object property of `JSON.stringify`:
a property whose value is `undefined` is omitted entirely, a string value is
emitted as `,"name":"<escaped value>"`. -/
def optField (name : Str) (o : Option Str) : Str :=
  match o with
  | none => []
  | some v => (',' :: '"' :: (name ++ '"' :: ':' :: '"' :: [])) ++ (esc v ++ ['"'])

/-- Property-name literal of the serialized `challengeId` property. -/
def cidName : Str := ['c', 'h', 'a', 'l', 'l', 'e', 'n', 'g', 'e', 'I', 'd']

/-- Property-name literal of the serialized `title` property. -/
def titleName : Str := ['t', 'i', 't', 'l', 'e']

/-- Property-name literal of the serialized `gradeStatus` property. -/
def gsName : Str := ['g', 'r', 'a', 'd', 'e', 'S', 't', 'a', 't', 'u', 's']

/-- Opening of the serialized object: `{"sql":"`.  The `sql` property is always
present and always first, because the handler has already verified that `sql`
is a (truthy) string before the key is computed. -/
def keyHeader : Str := ['\x7b', '"', 's', 'q', 'l', '"', ':', '"']

/-- The cache key of src/server.js:40,
`JSON.stringify({ sql, challengeId, title, gradeStatus })`:
properties appear in object-literal order (`sql`, `challengeId`, `title`,
`gradeStatus`), properties whose value is `undefined` are omitted, and string
values are escaped as in `escChar`.  The optional fields are string-or-absent,
matching the request schema of the spec. -/
def deriveKey (sql : Str) (cid title gs : Option Str) : Str :=
  keyHeader ++
    (esc sql ++ ('"' ::
      (optField cidName cid ++
        (optField titleName title ++
          (optField gsName gs ++ ['\x7d'])))))

/-! ### A decoder for the serialized key

The decoder below is used only to prove that `deriveKey` is injective: it
recovers the four field values from the serialized string. -/

/-- Numeric value of a lowercase hexadecimal digit. -/
def hexVal (c : Char) : Option Nat :=
  if 48 ≤ c.toNat ∧ c.toNat ≤ 57 then some (c.toNat - 48)
  else if 97 ≤ c.toNat ∧ c.toNat ≤ 102 then some (c.toNat - 87)
  else none

/-- Prepend a character to the string component of a partial parse result. -/
def consRes (c : Char) (r : Option (Str × Str)) : Option (Str × Str) :=
  r.map (fun p => (c :: p.1, p.2))

/-- Decode an escaped JSON string body up to and including its closing quote,
returning the decoded value and the remaining input. -/
def parseStr : Str → Option (Str × Str)
  | [] => none
  | c :: rest =>
    if c = '"' then some ([], rest)
    else if c = '\\' then
      match rest with
      | [] => none
      | e :: rest2 =>
        if e = '"' then consRes '"' (parseStr rest2)
        else if e = '\\' then consRes '\\' (parseStr rest2)
        else if e = 'b' then consRes (Char.ofNat 8) (parseStr rest2)
        else if e = 't' then consRes (Char.ofNat 9) (parseStr rest2)
        else if e = 'n' then consRes (Char.ofNat 10) (parseStr rest2)
        else if e = 'f' then consRes (Char.ofNat 12) (parseStr rest2)
        else if e = 'r' then consRes (Char.ofNat 13) (parseStr rest2)
        else if e = 'u' then
          match rest2 with
          | h1 :: h2 :: h3 :: h4 :: rest3 =>
            match hexVal h1, hexVal h2, hexVal h3, hexVal h4 with
            | some a, some b, some x, some y =>
              consRes (Char.ofNat (((a * 16 + b) * 16 + x) * 16 + y)) (parseStr rest3)
            | _, _, _, _ => none
          | _ => none
        else none
    else consRes c (parseStr rest)

/-- Consume an exact literal from the front of the input. -/
def parseLit : Str → Str → Option Str
  | [], s => some s
  | _ :: _, [] => none
  | c :: lit, x :: s => if c = x then parseLit lit s else none

/-- Decode one optional serialized property: if the input starts with the
property literal, decode its string value; otherwise report the property as
absent and leave the input untouched. -/
def parseOptField (name : Str) (s : Str) : Option (Option Str × Str) :=
  match parseLit (',' :: '"' :: (name ++ '"' :: ':' :: '"' :: [])) s with
  | some r => (parseStr r).map (fun p => (some p.1, p.2))
  | none => some (none, s)

/-- Decode a serialized cache key back into its four field values. -/
def parseKey (s : Str) : Option (Str × Option Str × Option Str × Option Str) :=
  match parseLit keyHeader s with
  | none => none
  | some r =>
    match parseStr r with
    | none => none
    | some (sql, r1) =>
      match parseOptField cidName r1 with
      | none => none
      | some (cid, r2) =>
        match parseOptField titleName r2 with
        | none => none
        | some (title, r3) =>
          match parseOptField gsName r3 with
          | none => none
          | some (gs, r4) =>
            if r4 = ['\x7d'] then some (sql, cid, title, gs) else none

/-! ### The Memoization Store

`const cache = new Map()` (src/server.js:24).  A JavaScript `Map` is an
insertion-ordered collection of key-value pairs: `set` overwrites in place when
the key is already present and appends at the end otherwise, `get` returns the
value or `undefined`, `size` is the number of entries, `clear` removes all
entries.  It is embedded as an association list, generic in the key and value
types (the server instantiates both with strings). -/

section MapModel

variable {κ α : Type} [DecidableEq κ]

/-- `Map.prototype.get`: the stored value for a key, if present. -/
def mapGet : List (κ × α) → κ → Option α
  | [], _ => none
  | p :: rest, k => if p.1 = k then some p.2 else mapGet rest k

/-- `Map.prototype.set`: overwrite in place if the key is present, otherwise
append the new entry at the end. -/
def mapSet : List (κ × α) → κ → α → List (κ × α)
  | [], k, v => [(k, v)]
  | p :: rest, k, v => if p.1 = k then (k, v) :: rest else p :: mapSet rest k v

/-- The store update the handler performs after a fresh explanation:
`cache.set(key, explanation); if (cache.size > 1000) cache.clear()`
(src/server.js:85-86). -/
def putWithBound (m : List (κ × α)) (k : κ) (v : α) : List (κ × α) :=
  if 1000 < (mapSet m k v).length then [] else mapSet m k v

end MapModel

/-! ### The request handler (src/server.js:31-93) -/

/-- The store of the server: string keys (serialized cache keys) to string
values (explanation texts). -/
abbrev Cache := List (Str × Str)

/-- The value of the `sql` property of the request body, as the validation
check sees it: `undefined` (property absent or explicitly undefined), a string,
or any other JavaScript value.  Non-string values carry their truthiness, which
is all the handler ever inspects about them. -/
inductive SqlVal where
  | undef : SqlVal
  | str (s : Str) : SqlVal
  | other (truthy : Bool) : SqlVal
deriving DecidableEq

/-- JavaScript falsiness of the `sql` value: `undefined` and the empty string
are falsy; other strings are truthy; other values carry their own truthiness. -/
def jsFalsy : SqlVal → Bool
  | .undef => true
  | .str s => s = []
  | .other t => !t

/-- `typeof sql === "string"`. -/
def isStringVal : SqlVal → Bool
  | .str _ => true
  | _ => false

/-- The validation check of src/server.js:35: `!sql || typeof sql !== "string"`
rejects the request. -/
def sqlInvalid (v : SqlVal) : Bool := jsFalsy v || !isStringVal v

/-- The `sql` string the handler proceeds with, when validation passes. -/
def getValidSql (v : SqlVal) : Option Str :=
  match v with
  | .str s => if jsFalsy (.str s) then none else some s
  | _ => none

/-- The destructured request body (src/server.js:33).  The optional context
fields are strings or absent, per the request schema of the spec. -/
structure ReqBody where
  sql : SqlVal
  challengeId : Option Str
  title : Option Str
  description : Option Str
  gradeStatus : Option Str
deriving DecidableEq

/-- The cache key derived from a request body that passes validation
(src/server.js:40), `none` when validation rejects the body. -/
def bodyKey (b : ReqBody) : Option Str :=
  (getValidSql b.sql).map (fun s => deriveKey s b.challengeId b.title b.gradeStatus)

/-- `message.content` of a chat completion choice: an optional string. -/
structure ChatMsg where
  content : Option Str
deriving DecidableEq

/-- One element of `completion.choices`; its `message` may be absent. -/
structure Choice where
  message : Option ChatMsg
deriving DecidableEq

/-- The completion object returned by the upstream service on success; its
`choices` array may be absent. -/
structure Completion where
  choices : Option (List Choice)
deriving DecidableEq

/-- The optional-chaining read `completion.choices?.[0]?.message?.content`
(src/server.js:81): `undefined` as soon as any link is missing (no `choices`,
empty `choices`, no `message`, no `content`). -/
def contentChain (comp : Completion) : Option Str :=
  ((comp.choices.bind List.head?).bind Choice.message).bind ChatMsg.content

/-- The placeholder text of src/server.js:82. -/
def fallbackExplanation : Str := String.toList "I couldn\x27t generate an explanation."

/-- The extraction of src/server.js:80-82: the chained `content` if it is a
truthy (non-empty) string, otherwise the placeholder. -/
def extractExplanation (comp : Completion) : Str :=
  jsOr (contentChain comp) fallbackExplanation

/-- The fixed system prompt (src/server.js:46-53). -/
def systemPrompt : Str := String.toList
  "\nYou are an expert SQL instructor and analytics lead.\nExplain the user\x27s SQL in clear, non-technical language for someone who cares about business outcomes.\n- First, summarize what the query is doing.\n- Then explain how it relates to the question or scenario.\n- If there is any obvious bug or inefficiency, mention it briefly.\nKeep the answer under 200-250 words.\n"

/-- The description text actually interpolated into the user prompt:
`(description || "").slice(0, 500)` (src/server.js:63). -/
def usedDescription (desc : Option Str) : Str := (jsOr desc []).take 500

/-- The user prompt template (src/server.js:55-68), with the four context
interpolations `challengeId || "unknown"`, `title || "N/A"`,
`(description || "").slice(0, 500)` and `gradeStatus || "N/A"`. -/
def userPrompt (sql : Str) (cid title desc gs : Option Str) : Str :=
  String.toList "\nSQL query:\n" ++ sql ++
    String.toList "\n\nChallenge context:\n- ID: " ++ jsOr cid (String.toList "unknown") ++
    String.toList "\n- Title: " ++ jsOr title (String.toList "N/A") ++
    String.toList "\n- Description (may be truncated):\n" ++ usedDescription desc ++
    String.toList "\n\nGrading status (if any): " ++ jsOr gs (String.toList "N/A") ++
    String.toList "\n\nPlease explain this query step by step, as if mentoring an analyst who knows basic SQL but wants to understand the logic and business meaning.\n"

/-- The JSON response the handler sends back: 200 with `{ explanation }`
(`cached` records whether the `cached: true` marker field is present), 400 with
`{ error }` on validation failure, 500 with `{ error }` on a caught error. -/
inductive Response where
  | ok (explanation : Str) (cached : Bool) : Response
  | badRequest (error : Str) : Response
  | serverError (error : Str) : Response
deriving DecidableEq

/-- The 400 message of src/server.js:36. -/
def missingSqlMsg : Str := String.toList "Missing \x27sql\x27 in request body."

/-- The generic 500 message of src/server.js:91.  The caught error itself is
only logged, never sent. -/
def failedMsg : Str := String.toList "Failed to explain SQL."

/-- Outcome of one call to the upstream chat-completion service: a completion
object, or a rejection carrying the internal error detail. -/
inductive UpstreamResult where
  | ok (comp : Completion) : UpstreamResult
  | err (detail : Str) : UpstreamResult

/-- What one request produces: the response sent, the cache state after the
request, and the list of (system prompt, user prompt) calls made to the
upstream service. -/
structure HandlerOutcome where
  response : Response
  cache : Cache
  calls : List (Str × Str)
deriving DecidableEq

/-- The body of `app.post("/api/explain-sql", ...)` (src/server.js:31-93), with
the upstream service passed as an oracle from the prompts to its outcome:
validate `sql`, derive the key, return the cached text with the `cached: true`
marker on a hit, otherwise call the service, store the extracted explanation
under the key (clearing the store if it then exceeds 1000 entries) and respond
without the marker; a service rejection is caught and answered with the generic
500 message, leaving the store untouched. -/
def handleExplain (m : Cache) (body : ReqBody) (up : Str → Str → UpstreamResult) :
    HandlerOutcome :=
  match getValidSql body.sql with
  | none => ⟨.badRequest missingSqlMsg, m, []⟩
  | some s =>
    let key := deriveKey s body.challengeId body.title body.gradeStatus
    match mapGet m key with
    | some v => ⟨.ok v true, m, []⟩
    | none =>
      let uprompt := userPrompt s body.challengeId body.title body.description body.gradeStatus
      match up systemPrompt uprompt with
      | .err _ => ⟨.serverError failedMsg, m, [(systemPrompt, uprompt)]⟩
      | .ok comp =>
        let explanation := extractExplanation comp
        ⟨.ok explanation false, putWithBound m key explanation, [(systemPrompt, uprompt)]⟩

/-- The all-absent destructuring result: what
`const { sql, ... } = req.body || {}` yields when the body is missing or not an
object. -/
def emptyBody : ReqBody := ⟨.undef, none, none, none, none⟩

/-- The handler including the body coalescing of src/server.js:33: a missing or
non-object request body (`none` here) destructures exactly like an empty
object. -/
def handleRequest (m : Cache) (body : Option ReqBody) (up : Str → Str → UpstreamResult) :
    HandlerOutcome :=
  handleExplain m (body.getD emptyBody) up

/-- A store state reachable by 1000 earlier successful requests: 1000 entries
under distinct derived keys (the single-character sql texts U+0000 .. U+03E7),
each holding some stored explanation.  Exactly at the 1000-entry bound: the
overflow check `size > 1000` has never fired. -/
def fullCache : Cache :=
  (List.range 1000).map (fun i => (deriveKey [Char.ofNat i] none none none, []))

/-- A sample request body with a nonempty string sql and no optional fields. -/
def sampleBody : ReqBody := ⟨SqlVal.str (String.toList "SELECT 1"), none, none, none, none⟩

/-- An upstream oracle that always succeeds with an empty `choices` array, so
the completion carries no message content. -/
def emptyChoicesUp : Str → Str → UpstreamResult := fun _ _ => UpstreamResult.ok ⟨some []⟩

/-! ### Round-trip lemmas: the decoder inverts the serializer -/

theorem hexVal_hexDigit (d : Nat) (h : d < 16) : hexVal (hexDigit d) = some d := by
  interval_cases d <;> decide

theorem hexVal_zero : hexVal '0' = some 0 := by decide

theorem parseStr_quote (rest : Str) : parseStr ('"' :: rest) = some ([], rest) := by
  rw [parseStr.eq_def]; simp

theorem parseStr_escQuote (rest : Str) :
    parseStr ('\\' :: '"' :: rest) = consRes '"' (parseStr rest) := by
  rw [parseStr.eq_def]; simp

theorem parseStr_escBackslash (rest : Str) :
    parseStr ('\\' :: '\\' :: rest) = consRes '\\' (parseStr rest) := by
  rw [parseStr.eq_def]; simp

theorem parseStr_escB (rest : Str) :
    parseStr ('\\' :: 'b' :: rest) = consRes (Char.ofNat 8) (parseStr rest) := by
  rw [parseStr.eq_def]; simp

theorem parseStr_escT (rest : Str) :
    parseStr ('\\' :: 't' :: rest) = consRes (Char.ofNat 9) (parseStr rest) := by
  rw [parseStr.eq_def]; simp

theorem parseStr_escN (rest : Str) :
    parseStr ('\\' :: 'n' :: rest) = consRes (Char.ofNat 10) (parseStr rest) := by
  rw [parseStr.eq_def]; simp

theorem parseStr_escF (rest : Str) :
    parseStr ('\\' :: 'f' :: rest) = consRes (Char.ofNat 12) (parseStr rest) := by
  rw [parseStr.eq_def]; simp

theorem parseStr_escR (rest : Str) :
    parseStr ('\\' :: 'r' :: rest) = consRes (Char.ofNat 13) (parseStr rest) := by
  rw [parseStr.eq_def]; simp

theorem parseStr_escU (a b : Char) (x y : Nat) (rest : Str)
    (ha : hexVal a = some x) (hb : hexVal b = some y) :
    parseStr ('\\' :: 'u' :: '0' :: '0' :: a :: b :: rest) =
      consRes (Char.ofNat (x * 16 + y)) (parseStr rest) := by
  rw [parseStr.eq_def]; simp [ha, hb, hexVal_zero]

theorem parseStr_other (c : Char) (rest : Str) (hq : ¬ c = '"') (hb : ¬ c = '\\') :
    parseStr (c :: rest) = consRes c (parseStr rest) := by
  rw [parseStr.eq_def]; simp [hq, hb]

theorem parseStr_esc (s : Str) : ∀ rest : Str, parseStr (esc s ++ '"' :: rest) = some (s, rest) := by
  induction s with
  | nil => intro rest; simpa [esc] using parseStr_quote rest
  | cons c s ih =>
    intro rest
    rw [esc]
    by_cases hq : c = '"'
    · subst hq
      have he : escChar '"' = ['\\', '"'] := by decide
      rw [he]
      simp only [List.cons_append, List.nil_append]
      rw [parseStr_escQuote, ih, consRes]
      rfl
    · by_cases hb : c = '\\'
      · subst hb
        have he : escChar '\\' = ['\\', '\\'] := by decide
        rw [he]
        simp only [List.cons_append, List.nil_append]
        rw [parseStr_escBackslash, ih, consRes]
        rfl
      · by_cases hc : c.toNat < 32
        · by_cases h8 : c.toNat = 8
          · have he : escChar c = ['\\', 'b'] := by simp [escChar, hq, hb, hc, h8]
            rw [he]
            simp only [List.cons_append, List.nil_append]
            rw [parseStr_escB, ih, consRes, ← h8, Char.ofNat_toNat]
            rfl
          · by_cases h9 : c.toNat = 9
            · have he : escChar c = ['\\', 't'] := by simp [escChar, hq, hb, hc, h8, h9]
              rw [he]
              simp only [List.cons_append, List.nil_append]
              rw [parseStr_escT, ih, consRes, ← h9, Char.ofNat_toNat]
              rfl
            · by_cases h10 : c.toNat = 10
              · have he : escChar c = ['\\', 'n'] := by simp [escChar, hq, hb, hc, h8, h9, h10]
                rw [he]
                simp only [List.cons_append, List.nil_append]
                rw [parseStr_escN, ih, consRes, ← h10, Char.ofNat_toNat]
                rfl
              · by_cases h12 : c.toNat = 12
                · have he : escChar c = ['\\', 'f'] := by
                    simp [escChar, hq, hb, hc, h8, h9, h10, h12]
                  rw [he]
                  simp only [List.cons_append, List.nil_append]
                  rw [parseStr_escF, ih, consRes, ← h12, Char.ofNat_toNat]
                  rfl
                · by_cases h13 : c.toNat = 13
                  · have he : escChar c = ['\\', 'r'] := by
                      simp [escChar, hq, hb, hc, h8, h9, h10, h12, h13]
                    rw [he]
                    simp only [List.cons_append, List.nil_append]
                    rw [parseStr_escR, ih, consRes, ← h13, Char.ofNat_toNat]
                    rfl
                  · have he : escChar c =
                        ['\\', 'u', '0', '0', hexDigit (c.toNat / 16), hexDigit (c.toNat % 16)] := by
                      simp [escChar, hq, hb, hc, h8, h9, h10, h12, h13]
                    have hv1 := hexVal_hexDigit (c.toNat / 16) (by omega)
                    have hv2 := hexVal_hexDigit (c.toNat % 16) (by omega)
                    have hn : c.toNat / 16 * 16 + c.toNat % 16 = c.toNat := by omega
                    rw [he]
                    simp only [List.cons_append, List.nil_append]
                    rw [parseStr_escU _ _ _ _ _ hv1 hv2, ih, consRes, hn, Char.ofNat_toNat]
                    rfl
        · have he : escChar c = [c] := by simp [escChar, hq, hb, hc]
          rw [he]
          simp only [List.cons_append, List.nil_append]
          rw [parseStr_other c _ hq hb, ih, consRes]
          rfl

theorem parseLit_append (lit : Str) : ∀ r : Str, parseLit lit (lit ++ r) = some r := by
  induction lit with
  | nil => intro r; simp [parseLit]
  | cons c lit ih => intro r; simp [parseLit, ih]

theorem parseKey_deriveKey (sql : Str) (cid title gs : Option Str) :
    parseKey (deriveKey sql cid title gs) = some (sql, cid, title, gs) := by
  rcases cid with _ | v1 <;> rcases title with _ | v2 <;> rcases gs with _ | v3 <;>
    simp [parseKey, deriveKey, parseOptField, optField, keyHeader, cidName, titleName, gsName,
      parseLit, parseStr_esc, List.append_assoc]

/-- The serialized cache key determines the four field values: `deriveKey` is
injective on the quadruple (sql, challengeId, title, gradeStatus), where each
optional field is a string or absent. -/
theorem deriveKey_inj (s1 s2 : Str) (c1 c2 t1 t2 g1 g2 : Option Str)
    (h : deriveKey s1 c1 t1 g1 = deriveKey s2 c2 t2 g2) :
    s1 = s2 ∧ c1 = c2 ∧ t1 = t2 ∧ g1 = g2 := by
  have h1 := parseKey_deriveKey s1 c1 t1 g1
  rw [h, parseKey_deriveKey] at h1
  simp only [Option.some.injEq, Prod.mk.injEq] at h1
  exact ⟨h1.1.symm, h1.2.1.symm, h1.2.2.1.symm, h1.2.2.2.symm⟩

/-! ### Store lemmas -/

section MapLemmas

variable {κ α : Type} [DecidableEq κ]

theorem mapGet_mapSet_self (m : List (κ × α)) (k : κ) (v : α) :
    mapGet (mapSet m k v) k = some v := by
  induction m with
  | nil => simp [mapGet, mapSet]
  | cons p rest ih =>
    by_cases h : p.1 = k
    · simp [mapGet, mapSet, h]
    · simp [mapGet, mapSet, h, ih]

theorem mapGet_mapSet_ne (m : List (κ × α)) (k k' : κ) (v : α) (h : k ≠ k') :
    mapGet (mapSet m k v) k' = mapGet m k' := by
  induction m with
  | nil => simp [mapGet, mapSet, h]
  | cons p rest ih =>
    by_cases hp : p.1 = k
    · simp [mapGet, mapSet, hp, h]
    · simp [mapGet, mapSet, hp, ih]

theorem mapGet_eq_none_of_not_mem (m : List (κ × α)) (k : κ)
    (h : k ∉ m.map Prod.fst) : mapGet m k = none := by
  induction m with
  | nil => simp [mapGet]
  | cons p rest ih =>
    simp only [List.map_cons, List.mem_cons] at h
    push_neg at h
    have hne : ¬ p.1 = k := fun he => h.1 he.symm
    simp [mapGet, hne, ih h.2]

theorem mapSet_of_not_mem (m : List (κ × α)) (k : κ) (v : α)
    (h : k ∉ m.map Prod.fst) : mapSet m k v = m ++ [(k, v)] := by
  induction m with
  | nil => simp [mapSet]
  | cons p rest ih =>
    simp only [List.map_cons, List.mem_cons] at h
    push_neg at h
    have hne : ¬ p.1 = k := fun he => h.1 he.symm
    simp [mapSet, hne, ih h.2]

theorem length_mapSet_le (m : List (κ × α)) (k : κ) (v : α) :
    (mapSet m k v).length ≤ m.length + 1 := by
  induction m with
  | nil => simp [mapSet]
  | cons p rest ih =>
    by_cases h : p.1 = k
    · simp [mapSet, h]
    · simp only [mapSet, if_neg h, List.length_cons]
      omega

/-- Folding the handler's store update over a sequence of puts with pairwise
distinct keys, all of them fresh for the initial store: as long as the store
stays at or below 1000 entries each put appends, and the put that brings the
count to 1001 clears everything. -/
theorem foldl_putWithBound_eq_nil :
    ∀ (ps : List (κ × α)) (m : List (κ × α)),
      (m.map Prod.fst ++ ps.map Prod.fst).Nodup → m.length ≤ 1000 →
      m.length + ps.length = 1001 →
      ps.foldl (fun acc p => putWithBound acc p.1 p.2) m = [] := by
  intro ps
  induction ps with
  | nil =>
    intro m _ hle hsum
    exact absurd hsum (by simp; omega)
  | cons p ps ih =>
    intro m hnd hle hsum
    simp only [List.map_cons] at hnd
    have hnd' : (p.1 :: (m.map Prod.fst ++ ps.map Prod.fst)).Nodup :=
      List.nodup_middle.mp hnd
    have hfresh : p.1 ∉ m.map Prod.fst := by
      have := (List.nodup_cons.mp hnd').1
      simp only [List.mem_append] at this
      tauto
    have hset : mapSet m p.1 p.2 = m ++ [(p.1, p.2)] := mapSet_of_not_mem m p.1 p.2 hfresh
    simp only [List.foldl_cons]
    by_cases hfull : m.length = 1000
    · have hps : ps = [] := by
        have : ps.length = 0 := by simp at hsum; omega
        exact List.eq_nil_of_length_eq_zero this
      subst hps
      simp [putWithBound, hset, hfull]
    · have hstep : putWithBound m p.1 p.2 = m ++ [(p.1, p.2)] := by
        rw [putWithBound, hset, if_neg]
        simp
        omega
      rw [hstep]
      apply ih
      · have : (m ++ [(p.1, p.2)]).map Prod.fst ++ ps.map Prod.fst =
            m.map Prod.fst ++ p.1 :: ps.map Prod.fst := by
          simp
        rw [this]
        exact List.nodup_middle.mpr hnd'
      · simp; omega
      · simp at hsum ⊢; omega

end MapLemmas

/-- `Char.ofNat` composed with `Char.toNat` is the identity below the surrogate
range; used to build many distinct one-character keys. -/
theorem toNat_ofNat_small (n : Nat) (h : n < 55296) : (Char.ofNat n).toNat = n := by
  have hv : n.isValidChar := Or.inl h
  simp [Char.ofNat, hv, Char.ofNatAux, Char.toNat, UInt32.toNat, BitVec.toNat_ofNatLt]

theorem getValidSql_str (s : Str) (h : s ≠ []) : getValidSql (SqlVal.str s) = some s := by
  simp [getValidSql, jsFalsy, h]

/-! ### The claims -/

/-- C1: after every put the store is cleared entirely when the entry count
exceeds 1000 (`putWithBound`), so a sequence of 1001 puts with distinct keys
into an initially empty store leaves the store empty — size 0 — immediately
after the 1001st put completes.  The source's consistent ordering runs the
overflow check after `set`, which is the "0" branch of the claim's
disjunction "size 1 or 0". -/
theorem claim_C1_overflow_clears_store (ps : List (Str × Str))
    (h1 : ps.length = 1001) (h2 : (ps.map Prod.fst).Nodup) :
    ps.foldl (fun acc p => putWithBound acc p.1 p.2) ([] : Cache) = [] := by
  apply foldl_putWithBound_eq_nil
  · simpa using h2
  · simp
  · simp [h1]

theorem claim_C1_overflow_clears_store_witness :
    ((((List.range 1001).map (fun i => (([Char.ofNat i] : Str), ([] : Str)))).length = 1001 ∧
        ((((List.range 1001).map (fun i => (([Char.ofNat i] : Str), ([] : Str)))).map
          Prod.fst)).Nodup) ∧
      ((List.range 1001).map (fun i => (([Char.ofNat i] : Str), ([] : Str)))).foldl
          (fun acc p => putWithBound acc p.1 p.2) ([] : Cache) = []) := by
  have hlen : (((List.range 1001).map (fun i => (([Char.ofNat i] : Str), ([] : Str)))).length
      = 1001) := by simp
  have hnd : ((((List.range 1001).map (fun i => (([Char.ofNat i] : Str), ([] : Str)))).map
      Prod.fst)).Nodup := by
    simp only [List.map_map]
    refine List.Nodup.map_on ?_ (List.nodup_range 1001)
    intro x hx y hy hxy
    simp only [List.mem_range] at hx hy
    simp only [Function.comp] at hxy
    have : Char.ofNat x = Char.ofNat y := by
      injection hxy
    have hts : (Char.ofNat x).toNat = (Char.ofNat y).toNat := by rw [this]
    rwa [toNat_ofNat_small x (by omega), toNat_ofNat_small y (by omega)] at hts
  exact ⟨⟨hlen, hnd⟩, claim_C1_overflow_clears_store _ hlen hnd⟩

/-- C2: on a cache hit the handler answers with the stored text and the
`cached: true` marker and never calls the upstream service; on a miss the
success response carries the extracted explanation without the marker. -/
theorem claim_C2_hit_serves_cache_miss_unmarked (m : Cache) (body : ReqBody) (s : Str)
    (hsql : body.sql = SqlVal.str s) (hne : s ≠ []) :
    (∀ (up : Str → Str → UpstreamResult) (v : Str),
        mapGet m (deriveKey s body.challengeId body.title body.gradeStatus) = some v →
        handleExplain m body up = ⟨Response.ok v true, m, []⟩) ∧
    (∀ comp : Completion,
        mapGet m (deriveKey s body.challengeId body.title body.gradeStatus) = none →
        (handleExplain m body (fun _ _ => UpstreamResult.ok comp)).response =
          Response.ok (extractExplanation comp) false) := by
  constructor
  · intro up v hhit
    simp [handleExplain, hsql, getValidSql_str s hne, hhit]
  · intro comp hmiss
    simp [handleExplain, hsql, getValidSql_str s hne, hmiss]

theorem claim_C2_hit_serves_cache_miss_unmarked_witness :
    ((⟨SqlVal.str (String.toList "SELECT 1"), none, none, none, none⟩ : ReqBody).sql =
        SqlVal.str (String.toList "SELECT 1") ∧
      String.toList "SELECT 1" ≠ [] ∧
      mapGet [(deriveKey (String.toList "SELECT 1") none none none, String.toList "an answer")]
          (deriveKey (String.toList "SELECT 1") none none none) =
        some (String.toList "an answer")) ∧
    handleExplain [(deriveKey (String.toList "SELECT 1") none none none, String.toList "an answer")]
        ⟨SqlVal.str (String.toList "SELECT 1"), none, none, none, none⟩
        (fun _ _ => UpstreamResult.err []) =
      ⟨Response.ok (String.toList "an answer") true,
        [(deriveKey (String.toList "SELECT 1") none none none, String.toList "an answer")], []⟩ := by
  refine ⟨⟨rfl, by decide, by rw [mapGet]; simp⟩, ?_⟩
  exact (claim_C2_hit_serves_cache_miss_unmarked _ _ _ rfl (by decide)).1 _ _ (by rw [mapGet]; simp)

/-- C3: the derived cache key of a request depends only on `sql`,
`challengeId`, `title` and `gradeStatus`; two bodies agreeing on those four
fields get the same key, whatever their descriptions are. -/
theorem claim_C3_description_excluded_from_key (b1 b2 : ReqBody)
    (hsql : b1.sql = b2.sql) (hcid : b1.challengeId = b2.challengeId)
    (ht : b1.title = b2.title) (hg : b1.gradeStatus = b2.gradeStatus) :
    bodyKey b1 = bodyKey b2 := by
  simp [bodyKey, hsql, hcid, ht, hg]

theorem claim_C3_description_excluded_from_key_witness :
    ((⟨SqlVal.str (String.toList "SELECT 1"), none, some (String.toList "t"),
          some (String.toList "first description"), none⟩ : ReqBody).sql =
        (⟨SqlVal.str (String.toList "SELECT 1"), none, some (String.toList "t"),
          some (String.toList "a very different description"), none⟩ : ReqBody).sql) ∧
    bodyKey ⟨SqlVal.str (String.toList "SELECT 1"), none, some (String.toList "t"),
        some (String.toList "first description"), none⟩ =
      bodyKey ⟨SqlVal.str (String.toList "SELECT 1"), none, some (String.toList "t"),
        some (String.toList "a very different description"), none⟩ :=
  ⟨rfl, claim_C3_description_excluded_from_key _ _ rfl rfl rfl rfl⟩

/-- C4 counterexample: a body whose `sql` is present and is a string — the
empty string — is nevertheless rejected by validation with the 400 response
(and no cache interaction and no upstream call), because
`!sql || typeof sql !== "string"` also rejects the falsy empty string.  The
claim's "if and only if its sql field is absent or not a string" is therefore
false on the code. -/
theorem claim_C4_counterexample :
    isStringVal (⟨SqlVal.str [], none, none, none, none⟩ : ReqBody).sql = true ∧
    handleExplain [] ⟨SqlVal.str [], none, none, none, none⟩
        (fun _ _ => UpstreamResult.err []) =
      ⟨Response.badRequest missingSqlMsg, [], []⟩ :=
  ⟨rfl, rfl⟩

/-- C4 amended: validation fails — with the 400 `{ error }` response, an
unchanged store and no upstream call — exactly when `sql` is absent, not a
string, or the empty string; otherwise `sql` is a nonempty string and the
handler proceeds past validation (its response is never the 400 validation
error). -/
theorem claim_C4_validation_amended (m : Cache) (body : ReqBody)
    (up : Str → Str → UpstreamResult) :
    (sqlInvalid body.sql = true ↔
      body.sql = SqlVal.undef ∨ (∃ t, body.sql = SqlVal.other t) ∨ body.sql = SqlVal.str []) ∧
    (sqlInvalid body.sql = true →
      handleExplain m body up = ⟨Response.badRequest missingSqlMsg, m, []⟩) ∧
    (sqlInvalid body.sql = false →
      ∃ s, body.sql = SqlVal.str s ∧ s ≠ [] ∧
        ∀ e, (handleExplain m body up).response ≠ Response.badRequest e) := by
  rcases hb : body.sql with _ | s | t
  · refine ⟨by simp [sqlInvalid, jsFalsy, isStringVal], fun _ => ?_,
      by simp [sqlInvalid, jsFalsy, isStringVal]⟩
    simp [handleExplain, hb, getValidSql]
  · by_cases hs : s = []
    · subst hs
      refine ⟨by simp [sqlInvalid, jsFalsy, isStringVal], fun _ => ?_,
        by simp [sqlInvalid, jsFalsy, isStringVal]⟩
      simp [handleExplain, hb, getValidSql, jsFalsy]
    · refine ⟨?_, ?_, fun _ => ⟨s, rfl, hs, ?_⟩⟩
      · simp [sqlInvalid, jsFalsy, isStringVal, hs]
      · simp [sqlInvalid, jsFalsy, isStringVal, hs]
      · intro e
        simp only [handleExplain, hb, getValidSql_str s hs]
        rcases hm : mapGet m (deriveKey s body.challengeId body.title body.gradeStatus) with _ | v
        · rcases hu : up systemPrompt
              (userPrompt s body.challengeId body.title body.description body.gradeStatus)
            with comp | d <;> simp [hm, hu]
        · simp [hm]
  · refine ⟨by simp [sqlInvalid, jsFalsy, isStringVal], fun _ => ?_,
      by simp [sqlInvalid, jsFalsy, isStringVal]⟩
    simp [handleExplain, hb, getValidSql]

theorem claim_C4_validation_amended_witness :
    (sqlInvalid (SqlVal.str []) = true) ∧
    handleExplain [] ⟨SqlVal.str [], none, none, none, none⟩
        (fun _ _ => UpstreamResult.err []) =
      ⟨Response.badRequest missingSqlMsg, [], []⟩ :=
  ⟨by decide,
    (claim_C4_validation_amended [] ⟨SqlVal.str [], none, none, none, none⟩
      (fun _ _ => UpstreamResult.err [])).2.1 (by decide)⟩

/-- C5: on the store, a `put(k, v)` (`Map.prototype.set`, src/server.js:85)
followed immediately by `get(k)` returns `v`, for every prior store
contents. -/
theorem claim_C5_put_then_get (m : Cache) (k v : Str) :
    mapGet (mapSet m k v) k = some v :=
  mapGet_mapSet_self m k v

/-- C6: key derivation is injective on the quadruple (sql, challengeId, title,
gradeStatus), absent fields included: two requests differing in at least one of
the four logical values derive different keys. -/
theorem claim_C6_key_injective (s1 s2 : Str) (c1 c2 t1 t2 g1 g2 : Option Str)
    (h : deriveKey s1 c1 t1 g1 = deriveKey s2 c2 t2 g2) :
    s1 = s2 ∧ c1 = c2 ∧ t1 = t2 ∧ g1 = g2 :=
  deriveKey_inj s1 s2 c1 c2 t1 t2 g1 g2 h

theorem claim_C6_key_injective_witness :
    (deriveKey (String.toList "SELECT 1") none (some (String.toList "t")) none =
      deriveKey (String.toList "SELECT 1") none (some (String.toList "t")) none) ∧
    (String.toList "SELECT 1" = String.toList "SELECT 1" ∧ (none : Option Str) = none ∧
      (some (String.toList "t") : Option Str) = some (String.toList "t") ∧
      (none : Option Str) = none) :=
  ⟨rfl, claim_C6_key_injective _ _ _ _ _ _ _ _ rfl⟩

/-- C7: when the upstream service call fails, the handler answers with the
generic 500 body — the constant message, independent of the internal error
detail `d` — makes exactly the one failed call (no retry), and leaves the store
exactly as it was. -/
theorem claim_C7_upstream_failure_generic (m : Cache) (body : ReqBody) (s d : Str)
    (hsql : body.sql = SqlVal.str s) (hne : s ≠ [])
    (hmiss : mapGet m (deriveKey s body.challengeId body.title body.gradeStatus) = none) :
    handleExplain m body (fun _ _ => UpstreamResult.err d) =
      ⟨Response.serverError failedMsg, m,
        [(systemPrompt,
          userPrompt s body.challengeId body.title body.description body.gradeStatus)]⟩ := by
  simp [handleExplain, hsql, getValidSql_str s hne, hmiss]

theorem claim_C7_upstream_failure_generic_witness :
    ((⟨SqlVal.str (String.toList "SELECT 1"), none, none, none, none⟩ : ReqBody).sql =
        SqlVal.str (String.toList "SELECT 1") ∧
      String.toList "SELECT 1" ≠ [] ∧
      mapGet ([] : Cache) (deriveKey (String.toList "SELECT 1") none none none) = none) ∧
    handleExplain [] ⟨SqlVal.str (String.toList "SELECT 1"), none, none, none, none⟩
        (fun _ _ => UpstreamResult.err (String.toList "ECONNREFUSED")) =
      ⟨Response.serverError failedMsg, [],
        [(systemPrompt, userPrompt (String.toList "SELECT 1") none none none none)]⟩ := by
  refine ⟨⟨rfl, by decide, rfl⟩, ?_⟩
  exact claim_C7_upstream_failure_generic [] _ _ _ rfl (by decide) rfl

/-- C8: the description text interpolated into the outbound user prompt is
`(description || "").slice(0, 500)`: it appears verbatim inside the prompt, is
never longer than 500 characters, equals the first 500 characters of a supplied
description, and is empty when the description is absent. -/
theorem claim_C8_description_bounded (sql : Str) (cid title desc gs : Option Str) :
    (∃ pre post, userPrompt sql cid title desc gs = pre ++ usedDescription desc ++ post) ∧
    (usedDescription desc).length ≤ 500 ∧
    (∀ d, desc = some d → usedDescription desc = d.take 500) ∧
    usedDescription none = [] := by
  refine ⟨⟨String.toList "\nSQL query:\n" ++ sql ++
      String.toList "\n\nChallenge context:\n- ID: " ++ jsOr cid (String.toList "unknown") ++
      String.toList "\n- Title: " ++ jsOr title (String.toList "N/A") ++
      String.toList "\n- Description (may be truncated):\n",
    String.toList "\n\nGrading status (if any): " ++ jsOr gs (String.toList "N/A") ++
      String.toList "\n\nPlease explain this query step by step, as if mentoring an analyst who knows basic SQL but wants to understand the logic and business meaning.\n",
    ?_⟩, ?_, ?_, ?_⟩
  · simp [userPrompt, List.append_assoc]
  · simp only [usedDescription, List.length_take]
    omega
  · intro d hd
    subst hd
    by_cases hde : d = [] <;> simp [usedDescription, jsOr, hde]
  · rfl

theorem claim_C8_description_bounded_witness :
    ((∃ pre post,
        userPrompt (String.toList "SELECT 1") none none
            (some (String.toList "find the big orders")) none =
          pre ++ usedDescription (some (String.toList "find the big orders")) ++ post) ∧
      (usedDescription (some (String.toList "find the big orders"))).length ≤ 500 ∧
      (∀ d, (some (String.toList "find the big orders") : Option Str) = some d →
        usedDescription (some (String.toList "find the big orders")) = d.take 500) ∧
      usedDescription none = []) :=
  claim_C8_description_bounded (String.toList "SELECT 1") none none
    (some (String.toList "find the big orders")) none

/-- C9 counterexample: the claim fails at a reachable store of exactly 1000
entries (1000 earlier distinct-key requests, `fullCache`).  A request whose
completion carries no content is answered with the placeholder, but the put
raises the store to 1001 entries, so the overflow policy (src/server.js:86)
clears the store: nothing remains under the derived key, and the identical
follow-up request, run on the store the first request left behind, misses the
cache — it is answered without the `cached: true` marker and with a second
upstream call — falsifying the claim's unconditional "subsequent identical
requests are served this placeholder from the cache with cached: true". -/
theorem claim_C9_counterexample :
    fullCache.length = 1000 ∧
    handleExplain fullCache sampleBody emptyChoicesUp =
      ⟨Response.ok fallbackExplanation false, [],
        [(systemPrompt, userPrompt (String.toList "SELECT 1") none none none none)]⟩ ∧
    handleExplain (handleExplain fullCache sampleBody emptyChoicesUp).cache sampleBody
        emptyChoicesUp =
      ⟨Response.ok fallbackExplanation false,
        mapSet [] (deriveKey (String.toList "SELECT 1") none none none) fallbackExplanation,
        [(systemPrompt, userPrompt (String.toList "SELECT 1") none none none none)]⟩ := by
  have hlen : fullCache.length = 1000 := by simp [fullCache]
  have hne : (['S', 'E', 'L', 'E', 'C', 'T', ' ', '1'] : Str) ≠ [] := by decide
  have hfresh : deriveKey ['S', 'E', 'L', 'E', 'C', 'T', ' ', '1'] none none none ∉
      fullCache.map Prod.fst := by
    intro hmem
    simp only [fullCache, List.map_map, List.mem_map, Function.comp_apply,
      List.mem_range] at hmem
    obtain ⟨i, hi, heq⟩ := hmem
    have hs := (deriveKey_inj _ _ _ _ _ _ _ _ heq).1
    have hl := congrArg List.length hs
    simp at hl
  have hmiss := mapGet_eq_none_of_not_mem fullCache
    (deriveKey ['S', 'E', 'L', 'E', 'C', 'T', ' ', '1'] none none none) hfresh
  have hset : mapSet fullCache (deriveKey ['S', 'E', 'L', 'E', 'C', 'T', ' ', '1'] none none none)
      fallbackExplanation =
      fullCache ++ [(deriveKey ['S', 'E', 'L', 'E', 'C', 'T', ' ', '1'] none none none,
        fallbackExplanation)] :=
    mapSet_of_not_mem _ _ _ hfresh
  have hput : putWithBound fullCache
      (deriveKey ['S', 'E', 'L', 'E', 'C', 'T', ' ', '1'] none none none)
      fallbackExplanation = [] := by
    simp [putWithBound, hset, hlen]
  have hext : extractExplanation ⟨some []⟩ = fallbackExplanation := rfl
  have h1 : handleExplain fullCache sampleBody emptyChoicesUp =
      ⟨Response.ok fallbackExplanation false, [],
        [(systemPrompt, userPrompt (String.toList "SELECT 1") none none none none)]⟩ := by
    simp [handleExplain, sampleBody, getValidSql_str _ hne, hmiss, emptyChoicesUp, hext, hput]
  refine ⟨hlen, h1, ?_⟩
  rw [h1]
  simp [handleExplain, sampleBody, getValidSql_str _ hne, emptyChoicesUp, hext,
    putWithBound, mapGet, mapSet]

/-- C9 amended: when the upstream call succeeds but the completion carries no
usable content (`choices?.[0]?.message?.content` is `undefined` or the empty
string), the handler responds with and stores the fixed placeholder under the
derived key; provided the store held fewer than 1000 entries before the put —
so the put does not lift the entry count past 1000 and trigger the overflow
clear — an identical follow-up request is served the placeholder from the
cache with the `cached: true` marker and no further upstream call.  (At a
store of exactly 1000 entries the put triggers the clear and the follow-up
misses; see the counterexample.) -/
theorem claim_C9_placeholder_stored_and_cached (m : Cache) (body : ReqBody) (s : Str)
    (comp : Completion)
    (hsql : body.sql = SqlVal.str s) (hne : s ≠ [])
    (hmiss : mapGet m (deriveKey s body.challengeId body.title body.gradeStatus) = none)
    (hroom : m.length < 1000)
    (hempty : contentChain comp = none ∨ contentChain comp = some []) :
    extractExplanation comp = fallbackExplanation ∧
    handleExplain m body (fun _ _ => UpstreamResult.ok comp) =
      ⟨Response.ok fallbackExplanation false,
        mapSet m (deriveKey s body.challengeId body.title body.gradeStatus) fallbackExplanation,
        [(systemPrompt,
          userPrompt s body.challengeId body.title body.description body.gradeStatus)]⟩ ∧
    (∀ up,
      handleExplain
          (mapSet m (deriveKey s body.challengeId body.title body.gradeStatus)
            fallbackExplanation) body up =
        ⟨Response.ok fallbackExplanation true,
          mapSet m (deriveKey s body.challengeId body.title body.gradeStatus)
            fallbackExplanation, []⟩) := by
  have hext : extractExplanation comp = fallbackExplanation := by
    rcases hempty with h | h <;> simp [extractExplanation, h, jsOr]
  have hnoclear : putWithBound m (deriveKey s body.challengeId body.title body.gradeStatus)
      fallbackExplanation =
      mapSet m (deriveKey s body.challengeId body.title body.gradeStatus) fallbackExplanation := by
    rw [putWithBound, if_neg]
    have := length_mapSet_le m (deriveKey s body.challengeId body.title body.gradeStatus)
      fallbackExplanation
    omega
  refine ⟨hext, ?_, ?_⟩
  · simp [handleExplain, hsql, getValidSql_str s hne, hmiss, hext, hnoclear]
  · intro up
    simp [handleExplain, hsql, getValidSql_str s hne, mapGet_mapSet_self]

theorem claim_C9_placeholder_stored_and_cached_witness :
    ((⟨SqlVal.str (String.toList "SELECT 1"), none, none, none, none⟩ : ReqBody).sql =
        SqlVal.str (String.toList "SELECT 1") ∧
      String.toList "SELECT 1" ≠ [] ∧
      mapGet ([] : Cache) (deriveKey (String.toList "SELECT 1") none none none) = none ∧
      ([] : Cache).length < 1000 ∧
      (contentChain ⟨some []⟩ = none ∨ contentChain ⟨some []⟩ = some [])) ∧
    extractExplanation ⟨some []⟩ = fallbackExplanation ∧
    handleExplain [] ⟨SqlVal.str (String.toList "SELECT 1"), none, none, none, none⟩
        (fun _ _ => UpstreamResult.ok ⟨some []⟩) =
      ⟨Response.ok fallbackExplanation false,
        mapSet [] (deriveKey (String.toList "SELECT 1") none none none) fallbackExplanation,
        [(systemPrompt, userPrompt (String.toList "SELECT 1") none none none none)]⟩ := by
  have h := claim_C9_placeholder_stored_and_cached []
      ⟨SqlVal.str (String.toList "SELECT 1"), none, none, none, none⟩
      (String.toList "SELECT 1") ⟨some []⟩ rfl (by decide) rfl (by decide) (Or.inl rfl)
  exact ⟨⟨rfl, by decide, rfl, by decide, Or.inl rfl⟩, h.1, h.2.1⟩

/-- C10: a missing or non-object request body is coalesced to the empty object
by `req.body || {}` before destructuring, so the handler neither crashes nor
behaves differently from an all-absent body: both produce the same 400
validation error, an unchanged store and no upstream call. -/
theorem claim_C10_body_coalesced (m : Cache) (up : Str → Str → UpstreamResult) :
    handleRequest m none up = handleRequest m (some emptyBody) up ∧
    handleRequest m none up = ⟨Response.badRequest missingSqlMsg, m, []⟩ :=
  ⟨rfl, rfl⟩

end ExplainBackend
